import Mathlib

/-!
Verification of the Risk & Health Scoring Engine of the
Workforce-Analytics dashboard.

The definitions below are a shallow embedding of the scoring code:

* `score_to_label`        — src/pages/8_Mood_Analytics.py, `score_to_label`
* `attendance_score`      — src/pages/10_Projects.py, `attendance_score`
* `mood_score`            — src/pages/10_Projects.py, `mood_score`
* `days_to_due`           — src/pages/10_Projects.py, `days_to_due`
* `projectHealthRow`      — src/pages/10_Projects.py, health loop (lines 141-186)
* `scoreEmployee`         — src/pages/15_AI_Summary.py, body of the per-employee
                            loop of `compute_attrition_risk`
* `compute_attrition_risk` — src/pages/15_AI_Summary.py, `compute_attrition_risk`

Tabular data is modelled as lists of rows.  Values that the Python code
obtains through a fallible numeric parse (`int(...)`, `pd.to_numeric(...,
errors="coerce")`, `pd.to_datetime`) are modelled as `Option` fields: `none`
is a value the parse rejects (NaN / NaT), `some v` a successfully parsed
value.  Dates are day ordinals (`Int`), so `a < b` is "a is before b" and
subtraction is a day count.  Rates and means are computed in `ℚ`, which is
exact, so the comparisons against 0.3, 0.15, 0.5, 0.25, 10, 2.5 and 3.5 are
the same comparisons the float code performs on these small fractions.
-/

namespace Workforce

/-- One attendance row: `(emp_id, status)`, status e.g. "Present", "Absent",
"Half-Day".  The calendar date is never read by the scorers, so it is not
modelled. -/
structure AttRow where
  emp_id : Nat
  status : String
deriving DecidableEq

/-- One mood-log row.  `mood_score` is the numeric parse of the stored
composite (`none` when not numeric), `remarks` the free-text remark,
`log_date` the parsed log date as a day ordinal. -/
structure MoodRow where
  emp_id : Nat
  mood_score : Option Int
  remarks : String
  log_date : Int
deriving DecidableEq

/-- One feedback row: receiving employee and the numeric parse of the
rating. -/
structure FbRow where
  receiver_id : Nat
  rating : Option Int
deriving DecidableEq

/-- One task row.  `due_date` is the parsed due date as a day ordinal,
`none` when `pd.to_datetime(..., errors="coerce")` yields NaT (comparisons
against NaT are false in pandas, and `none` is treated the same way
below). -/
structure TaskRow where
  emp_id : Nat
  status : String
  due_date : Option Int
deriving DecidableEq

/-- One employee row of the employees table. -/
structure Employee where
  emp_id : Nat
  name : String
  department : String
  role : String
  status : String
deriving DecidableEq

/-- Fraction of a count over a total, as an exact rational; models the
float division the rate computations perform. -/
def rateOf (num den : Nat) : ℚ := (num : ℚ) / (den : ℚ)

/-- Mean of a list of integers, as a rational (only used on nonempty
lists; the guards in the scorers mirror the `pd.notna` checks). -/
def listMean (l : List Int) : ℚ := ((l.foldl (· + ·) 0 : Int) : ℚ) / (l.length : ℚ)

/-- Substring test, the embedding of Python `pat in s` /
`Series.str.contains(pat)`: splitting on the pattern yields more than one
piece exactly when the pattern occurs. -/
def strContains (s pat : String) : Bool := (s.splitOn pat).length > 1

/-- The three mood labels produced by `score_to_label` in
src/pages/8_Mood_Analytics.py (the Python strings carry an emoji prefix,
e.g. "😊 Happy"; the label is what matters to the analytics). -/
inductive MoodLabel where
  | happy
  | neutral
  | stressed
deriving DecidableEq

/-- src/pages/8_Mood_Analytics.py, lines 60-67.  The Python takes the raw
stored value and runs `int(score)` inside `try`; a raised exception (the
value is not a valid number) is caught and the literal "😐 Neutral" is
returned.  The argument models the outcome of that parse: `some s` when
`int(score)` succeeds with value `s`, `none` when it raises. -/
def score_to_label : Option Int → MoodLabel
  | some s => if s ≥ 20 then .happy else if s ≥ 13 then .neutral else .stressed
  | none => .neutral

/-- One project row, as read from the projects table.  `due_date` models
`pd.to_datetime(row.get("due_date", ""))`: `some d` when the stored value
parses to the day ordinal `d`, `none` when the value is missing or the
parse raises (the `except` branch of `days_to_due`). -/
structure Project where
  project_id : Nat
  project_name : String
  owner_emp_id : Nat
  status : String
  progress : Int
  due_date : Option Int
deriving DecidableEq

/-- src/pages/10_Projects.py, lines 107-117.  Attendance sub-score of one
employee: 0 when the whole attendance table is empty, 5 when the table is
nonempty but holds no row of this employee, otherwise 20 / 10 / 0 by the
present-rate. -/
def attendance_score (attendance_df : List AttRow) (emp_id : Nat) : Int :=
  if attendance_df.isEmpty then 0
  else
    let emp_att := attendance_df.filter (fun r => r.emp_id == emp_id)
    if emp_att.isEmpty then 5
    else
      let present := (emp_att.filter (fun r => r.status.toLower == "present")).length
      let presentRate := rateOf present emp_att.length
      if presentRate > 4/5 then 20
      else if presentRate > 1/2 then 10
      else 0

/-- src/pages/10_Projects.py, lines 119-129.  Mood sub-score of one
employee: 0 when the whole mood table is empty, 5 when the table is
nonempty but holds no row of this employee, otherwise 20 / 10 / 0 by the
remark of the latest entry.  `emp_mood.sort_values("log_date").iloc[-1]`
is the last row carrying the maximal log date, which the fold below
computes (later rows win ties). -/
def mood_score (mood_df : List MoodRow) (emp_id : Nat) : Int :=
  if mood_df.isEmpty then 0
  else
    match mood_df.filter (fun r => r.emp_id == emp_id) with
    | [] => 5
    | m :: ms =>
      let last := ms.foldl (fun best r => if best.log_date ≤ r.log_date then r else best) m
      if strContains last.remarks "Happy" then 20
      else if strContains last.remarks "Neutral" then 10
      else 0

/-- src/pages/10_Projects.py, lines 131-136.  Days from today to the due
date; a missing or unparseable due date (the `except` branch) yields
999. -/
def days_to_due (due : Option Int) (today : Int) : Int :=
  match due with
  | some d => d - today
  | none => 999

/-- src/pages/10_Projects.py, lines 149-154.  Deadline penalty from the
days-left value: overdue → −20, due within a week → −10, else 0. -/
def deadline_bonus (days_left : Int) : Int :=
  if days_left < 0 then -20
  else if days_left < 7 then -10
  else 0

/-- The health-status labels of the projects page (the Python strings
carry an emoji prefix, e.g. "✅ Completed", "🔴 Critical"). -/
inductive HealthStatus where
  | completed
  | cancelled
  | healthy
  | atRisk
  | critical
deriving DecidableEq

/-- src/pages/10_Projects.py, lines 158-172.  Label resolution: an
explicit Completed / Cancelled project status is answered first, only
then is the numeric health score consulted. -/
def health_status (status : String) (score : Int) : HealthStatus :=
  if status = "Completed" then .completed
  else if status = "Cancelled" then .cancelled
  else if score ≥ 70 then .healthy
  else if score ≥ 40 then .atRisk
  else .critical

/-- One output row of the project-health table (the fields the health
loop fills that the scoring claims are about). -/
structure HealthRow where
  project_id : Nat
  status : String
  progress : Int
  health_score : Int
  health_status : HealthStatus
  days_left : Int
deriving DecidableEq

/-- src/pages/10_Projects.py, lines 141-186.  One iteration of the health
loop: sub-scores of the owner, deadline penalty, clamped health score and
label. -/
def projectHealthRow (attendance_df : List AttRow) (mood_df : List MoodRow)
    (today : Int) (row : Project) : HealthRow :=
  let progress := row.progress
  let mood := mood_score mood_df row.owner_emp_id
  let att := attendance_score attendance_df row.owner_emp_id
  let days_left := days_to_due row.due_date today
  let score := min 100 (max 0 (progress + mood + att + deadline_bonus days_left))
  { project_id := row.project_id
    status := row.status
    progress := progress
    health_score := score
    health_status := health_status row.status score
    days_left := days_left }

/-- The spec words for the health-score formula: "clamp(x, 0, 100)".
Stated from the spec, to be compared with the source expression
`min 100 (max 0 x)`. -/
def specClamp (x : Int) : Int := max 0 (min 100 x)

/-- The four risk levels of the attrition table (Python strings
"🔴 Resigned", "🔴 High Risk", "🟡 Medium Risk", "🟢 Low Risk"). -/
inductive RiskLevel where
  | resigned
  | high
  | medium
  | low
deriving DecidableEq

/-- The factor messages `compute_attrition_risk` appends to the
`Key_Factors` column, one tag per `factors.append(...)` site of the
Python (the strings interpolate the underlying rate/mean, which the
tags abstract away). -/
inductive RiskFactor where
  | highAbsenteeism
  | moderateAbsenteeism
  | noAttendanceData
  | frequentlyStressed
  | occasionalStress
  | lowAvgMoodScore
  | noMoodData
  | poorFeedbackRating
  | belowAverageFeedback
  | overdueTasks
  | alreadyResigned
deriving DecidableEq

/-- One output row of the attrition risk table. -/
structure RiskRow where
  emp_id : Nat
  name : String
  department : String
  role : String
  status : String
  risk_score : Nat
  risk_level : RiskLevel
  key_factors : List RiskFactor
deriving DecidableEq

/-- src/pages/15_AI_Summary.py, lines 95-198: the body of the
per-employee loop of `compute_attrition_risk`.  A Resigned employee is
answered immediately with score 100; otherwise the attendance, mood,
feedback and task rules accumulate penalties, the total is capped at 95
and banded into a level.  The guards `if not att_df.empty` etc. of the
Python are no-ops under list filtering (filtering an empty table gives
the same empty result) and are therefore not reproduced. -/
def scoreEmployee (today : Int) (att_df : List AttRow) (mood_df : List MoodRow)
    (feedback_df : List FbRow) (tasks_df : List TaskRow) (emp : Employee) : RiskRow :=
  if emp.status = "Resigned" then
    { emp_id := emp.emp_id
      name := emp.name
      department := emp.department
      role := emp.role
      status := emp.status
      risk_score := 100
      risk_level := .resigned
      key_factors := [.alreadyResigned] }
  else
    let emp_att := att_df.filter (fun r => r.emp_id == emp.emp_id)
    let attPart : Nat × List RiskFactor :=
      if emp_att.isEmpty then (5, [.noAttendanceData])
      else
        let absent_count := (emp_att.filter (fun r =>
          r.status.toLower == "absent" || r.status.toLower == "half-day")).length
        let absent_rate := rateOf absent_count emp_att.length
        if absent_rate > 3/10 then (30, [.highAbsenteeism])
        else if absent_rate > 3/20 then (15, [.moderateAbsenteeism])
        else (0, [])
    let emp_mood := mood_df.filter (fun r => r.emp_id == emp.emp_id)
    let moodPart : Nat × List RiskFactor :=
      if emp_mood.isEmpty then (5, [.noMoodData])
      else
        let stressed_count := (emp_mood.filter (fun r =>
          strContains r.remarks "Stressed")).length
        let stress_rate := rateOf stressed_count emp_mood.length
        let stressPart : Nat × List RiskFactor :=
          if stress_rate > 1/2 then (30, [.frequentlyStressed])
          else if stress_rate > 1/4 then (15, [.occasionalStress])
          else (0, [])
        let scores := emp_mood.filterMap (fun r => r.mood_score)
        let avgPart : Nat × List RiskFactor :=
          if scores.isEmpty then (0, [])
          else if listMean scores < 10 then (10, [.lowAvgMoodScore])
          else (0, [])
        (stressPart.1 + avgPart.1, stressPart.2 ++ avgPart.2)
    let emp_fb := feedback_df.filter (fun r => r.receiver_id == emp.emp_id)
    let fbPart : Nat × List RiskFactor :=
      if emp_fb.isEmpty then (0, [])
      else
        let ratings := emp_fb.filterMap (fun r => r.rating)
        if ratings.isEmpty then (0, [])
        else if listMean ratings < 5/2 then (20, [.poorFeedbackRating])
        else if listMean ratings < 7/2 then (10, [.belowAverageFeedback])
        else (0, [])
    let emp_tasks := tasks_df.filter (fun r => r.emp_id == emp.emp_id)
    let taskPart : Nat × List RiskFactor :=
      if emp_tasks.isEmpty then (0, [])
      else
        let overdue := emp_tasks.filter (fun t =>
          !(t.status == "Completed") &&
            (match t.due_date with
             | some d => decide (d < today)
             | none => false))
        if overdue.length ≥ 3 then (10, [.overdueTasks])
        else (0, [])
    let risk := min (attPart.1 + moodPart.1 + fbPart.1 + taskPart.1) 95
    let level : RiskLevel :=
      if risk ≥ 70 then .high
      else if risk ≥ 40 then .medium
      else .low
    { emp_id := emp.emp_id
      name := emp.name
      department := emp.department
      role := emp.role
      status := emp.status
      risk_score := risk
      risk_level := level
      key_factors := attPart.2 ++ moodPart.2 ++ fbPart.2 ++ taskPart.2 }

/-- Insert a row into a list already sorted by risk score descending,
placing it before the first row whose score does not exceed it. -/
def insertByScore (r : RiskRow) : List RiskRow → List RiskRow
  | [] => [r]
  | x :: xs =>
    if x.risk_score ≤ r.risk_score then r :: x :: xs
    else x :: insertByScore r xs

/-- Stable sort by risk score descending: rows with equal scores keep
their relative input order. -/
def sortByScoreDesc (l : List RiskRow) : List RiskRow :=
  l.foldr insertByScore []

/-- src/pages/15_AI_Summary.py, lines 83-200: score every employee, then
`sort_values("Risk_Score", ascending=False)`.  The sort key is the risk
score alone — the Python passes no secondary key — and the sort is
modelled as a stable sort, so rows with equal scores keep the order they
have in the employees table. -/
def compute_attrition_risk (today : Int) (emp_df : List Employee)
    (att_df : List AttRow) (mood_df : List MoodRow)
    (feedback_df : List FbRow) (tasks_df : List TaskRow) : List RiskRow :=
  sortByScoreDesc (emp_df.map (scoreEmployee today att_df mood_df feedback_df tasks_df))

/-- The ordering the spec claims for the attrition table: risk score
descending, ties broken by employee identifier ascending.  Stated from
the spec words, to be compared with the order the code produces. -/
def specTieBreakSorted (l : List RiskRow) : Prop :=
  List.Pairwise
    (fun a b => b.risk_score < a.risk_score ∨
      (a.risk_score = b.risk_score ∧ a.emp_id < b.emp_id)) l

/-- C6: for every mood entry with an integer composite score, the label
is Happy iff the score is at least 20, Neutral iff it is at least 13 and
below 20, and Stressed otherwise; each band is inclusive at its lower
bound and exactly one label is produced. -/
theorem mood_label_bands (s : Int) :
    (score_to_label (some s) = .happy ↔ 20 ≤ s) ∧
    (score_to_label (some s) = .neutral ↔ 13 ≤ s ∧ s < 20) ∧
    (score_to_label (some s) = .stressed ↔ s < 13) := by
  simp only [score_to_label, ge_iff_le]
  by_cases h1 : 20 ≤ s <;> by_cases h2 : 13 ≤ s <;>
    simp [h1, h2] <;> omega

/-- Instantiation of the band theorem at the boundaries 20, 13 and 12. -/
theorem mood_label_bands_witness :
    score_to_label (some 20) = .happy ∧
    score_to_label (some 13) = .neutral ∧
    score_to_label (some 12) = .stressed :=
  ⟨(mood_label_bands 20).1.mpr (by norm_num),
   (mood_label_bands 13).2.1.mpr (by norm_num),
   (mood_label_bands 12).2.2.mpr (by norm_num)⟩

/-- C7, counterexample: `score_to_label` never raises a validation
error.  A value that is not a valid number yields the default label
Neutral, and out-of-range composites (the survey range is 5 to 25) are
silently classified by the same thresholds: 100 maps to Happy and 0 to
Stressed. -/
theorem mood_label_no_validation_error :
    score_to_label none = .neutral ∧
    score_to_label (some 100) = .happy ∧
    score_to_label (some 0) = .stressed := by decide

/-- C7, amended: the mood labeller is total — it always returns one of
the three labels, a non-numeric input yields the default Neutral, and
out-of-range numeric inputs are classified by the same thresholds
instead of being rejected. -/
theorem mood_label_total (x : Option Int) :
    (score_to_label x = .happy ∨ score_to_label x = .neutral ∨
      score_to_label x = .stressed) ∧
    (x = none → score_to_label x = .neutral) ∧
    (∀ s : Int, x = some s → 25 < s → score_to_label x = .happy) ∧
    (∀ s : Int, x = some s → s < 5 → score_to_label x = .stressed) := by
  rcases x with _ | s
  · refine ⟨Or.inr (Or.inl rfl), fun _ => rfl, ?_, ?_⟩ <;> intro s hs <;> cases hs
  · refine ⟨?_, ?_, ?_, ?_⟩
    · simp only [score_to_label]
      by_cases h1 : s ≥ 20 <;> by_cases h2 : s ≥ 13 <;> simp [h1, h2]
    · intro h
      cases h
    · intro t ht hlt
      cases ht
      exact (mood_label_bands s).1.mpr (by omega)
    · intro t ht hlt
      cases ht
      exact (mood_label_bands s).2.2.mpr (by omega)

/-- Instantiation of the totality theorem: a non-numeric value gets the
default label Neutral, and the out-of-range composite 26 gets Happy. -/
theorem mood_label_total_witness :
    score_to_label none = .neutral ∧ score_to_label (some 26) = .happy :=
  ⟨(mood_label_total none).2.1 rfl,
   (mood_label_total (some 26)).2.2.1 26 rfl (by norm_num)⟩

/-- C4: a stored Completed or Cancelled project status is always the
reported health status, overriding the numeric score; for any other
status the label comes from the score bands (at least 70 is Healthy,
at least 40 is At Risk, otherwise Critical), and a cancelled project is
never reported Critical.  The last clause states the override through
the full health-row pipeline. -/
theorem health_status_override (s : String) (score : Int) :
    health_status "Completed" score = .completed ∧
    health_status "Cancelled" score = .cancelled ∧
    (s ≠ "Completed" → s ≠ "Cancelled" →
      health_status s score =
        if 70 ≤ score then .healthy
        else if 40 ≤ score then .atRisk
        else .critical) ∧
    health_status "Cancelled" score ≠ .critical ∧
    (∀ (att : List AttRow) (mood : List MoodRow) (today : Int) (p : Project),
      p.status = "Cancelled" →
      (projectHealthRow att mood today p).health_status = .cancelled) := by
  refine ⟨by simp [health_status], by simp [health_status], ?_, ?_, ?_⟩
  · intro h1 h2
    simp [health_status, h1, h2, ge_iff_le]
  · simp [health_status]
  · intro att mood today p hp
    simp [projectHealthRow, health_status, hp]

/-- Instantiation of the override theorem: an Active project with score
90 is Healthy, and a project stored Cancelled with progress 90 still
reports Cancelled through the pipeline. -/
theorem health_status_override_witness :
    health_status "Active" 90 = .healthy ∧
    (projectHealthRow [] [] 0
      { project_id := 1, project_name := "P", owner_emp_id := 1,
        status := "Cancelled", progress := 90,
        due_date := some 30 }).health_status = .cancelled := by
  constructor
  · rw [(health_status_override "Active" 90).2.2.1 (by decide) (by decide)]
    norm_num
  · exact (health_status_override "X" 0).2.2.2.2 [] [] 0 _ rfl

/-- C5: the health score of every project equals the raw sum of progress,
owner mood sub-score, owner attendance sub-score and deadline adjustment,
clamped to the interval from 0 to 100; in particular it is never below 0
or above 100. -/
theorem health_score_clamped (att : List AttRow) (mood : List MoodRow)
    (today : Int) (p : Project) :
    (projectHealthRow att mood today p).health_score =
      specClamp (p.progress + mood_score mood p.owner_emp_id +
        attendance_score att p.owner_emp_id +
        deadline_bonus (days_to_due p.due_date today)) ∧
    0 ≤ (projectHealthRow att mood today p).health_score ∧
    (projectHealthRow att mood today p).health_score ≤ 100 := by
  simp only [projectHealthRow, specClamp]
  omega

/-- Instantiation of the clamp theorem on a concrete project whose raw
sum exceeds 100. -/
theorem health_score_clamped_witness :
    0 ≤ (projectHealthRow [] [] 0
      { project_id := 1, project_name := "P", owner_emp_id := 1,
        status := "Active", progress := 95, due_date := some 30 }).health_score ∧
    (projectHealthRow [] [] 0
      { project_id := 1, project_name := "P", owner_emp_id := 1,
        status := "Active", progress := 95, due_date := some 30 }).health_score ≤ 100 :=
  ⟨(health_score_clamped [] [] 0 _).2.1, (health_score_clamped [] [] 0 _).2.2⟩

/-- C10: a project whose due date is missing or does not parse yields
days-left 999, hence no deadline adjustment, and the health row still
comes out with Days Left 999 and the unadjusted clamped score. -/
theorem missing_due_date_safe (att : List AttRow) (mood : List MoodRow)
    (today : Int) (p : Project) (h : p.due_date = none) :
    days_to_due p.due_date today = 999 ∧
    (projectHealthRow att mood today p).days_left = 999 ∧
    deadline_bonus (days_to_due p.due_date today) = 0 ∧
    (projectHealthRow att mood today p).health_score =
      specClamp (p.progress + mood_score mood p.owner_emp_id +
        attendance_score att p.owner_emp_id) := by
  refine ⟨by simp [days_to_due, h], by simp [projectHealthRow, days_to_due, h], ?_, ?_⟩
  · simp [days_to_due, h, deadline_bonus]
  · simp only [projectHealthRow, days_to_due, h, deadline_bonus, specClamp]
    omega

/-- Instantiation of the missing-due-date theorem on a concrete project
with no due date. -/
theorem missing_due_date_safe_witness :
    (projectHealthRow [] [] 0
      { project_id := 1, project_name := "P", owner_emp_id := 1,
        status := "Active", progress := 50,
        due_date := none }).days_left = 999 :=
  (missing_due_date_safe [] [] 0 _ rfl).2.1

/-- C8, counterexample: when the attendance (resp. mood) table is
entirely empty, the sub-score of an owner is 0, not the claimed default
5 — the empty-table guard of the Python returns before the no-rows
default is reached. -/
theorem empty_table_subscore_zero :
    attendance_score ([] : List AttRow) 1 = 0 ∧
    attendance_score ([] : List AttRow) 1 ≠ 5 ∧
    mood_score ([] : List MoodRow) 1 = 0 ∧
    mood_score ([] : List MoodRow) 1 ≠ 5 := by decide

/-- C8, amended: the non-zero default 5 applies exactly when the signal
table is non-empty but holds no row of the owner; when the whole table
is empty the sub-score is 0. -/
theorem missing_rows_default_subscore (att : List AttRow)
    (mood : List MoodRow) (eid : Nat) :
    (att ≠ [] → att.filter (fun r => r.emp_id == eid) = [] →
      attendance_score att eid = 5) ∧
    (att = [] → attendance_score att eid = 0) ∧
    (mood ≠ [] → mood.filter (fun r => r.emp_id == eid) = [] →
      mood_score mood eid = 5) ∧
    (mood = [] → mood_score mood eid = 0) := by
  refine ⟨?_, ?_, ?_, ?_⟩
  · intro h1 h2
    simp [attendance_score, h1, h2]
  · intro h1
    simp [attendance_score, h1]
  · intro h1 h2
    simp [mood_score, h1, h2]
  · intro h1
    simp [mood_score, h1]

/-- Instantiation of the default-sub-score theorem: a table holding only
a row of employee 2 gives owner 1 the default 5, the empty table gives
0. -/
theorem missing_rows_default_subscore_witness :
    attendance_score [{ emp_id := 2, status := "Present" }] 1 = 5 ∧
    mood_score ([] : List MoodRow) 1 = 0 :=
  ⟨(missing_rows_default_subscore [{ emp_id := 2, status := "Present" }] [] 1).1
      (by decide) (by decide),
   (missing_rows_default_subscore [] [] 1).2.2.2 rfl⟩

/-- C1: a Resigned employee is scored 100 with level Resigned and the
single factor "already resigned", whatever the four signal tables
contain — the attendance, mood, feedback and task rules never run. -/
theorem resigned_short_circuit (today : Int) (att : List AttRow)
    (mood : List MoodRow) (fb : List FbRow) (tasks : List TaskRow)
    (emp : Employee) (h : emp.status = "Resigned") :
    scoreEmployee today att mood fb tasks emp =
      { emp_id := emp.emp_id, name := emp.name,
        department := emp.department, role := emp.role,
        status := emp.status, risk_score := 100,
        risk_level := .resigned, key_factors := [.alreadyResigned] } := by
  simp [scoreEmployee, h]

/-- Instantiation of the short-circuit theorem on a concrete resigned
employee with non-trivial signal tables. -/
theorem resigned_short_circuit_witness :
    scoreEmployee 0 [{ emp_id := 3, status := "Absent" }]
      [{ emp_id := 3, mood_score := some 5, remarks := "Stressed", log_date := 0 }]
      [{ receiver_id := 3, rating := some 1 }]
      [{ emp_id := 3, status := "Pending", due_date := some (-1) }]
      { emp_id := 3, name := "C", department := "D", role := "R",
        status := "Resigned" } =
      { emp_id := 3, name := "C", department := "D", role := "R",
        status := "Resigned", risk_score := 100,
        risk_level := .resigned, key_factors := [.alreadyResigned] } :=
  resigned_short_circuit 0 _ _ _ _ _ rfl

/-- C2: a non-Resigned employee never scores above 95 — the final cap
applies whatever penalties accumulated — and conversely a score of 100
can only belong to a Resigned employee. -/
theorem non_resigned_cap (today : Int) (att : List AttRow)
    (mood : List MoodRow) (fb : List FbRow) (tasks : List TaskRow)
    (emp : Employee) :
    (emp.status ≠ "Resigned" →
      (scoreEmployee today att mood fb tasks emp).risk_score ≤ 95) ∧
    ((scoreEmployee today att mood fb tasks emp).risk_score = 100 →
      emp.status = "Resigned") := by
  have cap : emp.status ≠ "Resigned" →
      (scoreEmployee today att mood fb tasks emp).risk_score ≤ 95 := by
    intro h
    unfold scoreEmployee
    rw [if_neg h]
    exact Nat.min_le_right _ _
  refine ⟨cap, fun h100 => ?_⟩
  by_contra hne
  have := cap hne
  omega

/-- Instantiation of the cap theorem on an Active employee for whom
every penalty rule fires: high absenteeism, frequent stress, low mean
mood, poor feedback and three overdue tasks. -/
theorem non_resigned_cap_witness :
    (scoreEmployee 1
      [{ emp_id := 1, status := "Absent" }, { emp_id := 1, status := "Present" }]
      [{ emp_id := 1, mood_score := some 5, remarks := "Stressed", log_date := 0 },
       { emp_id := 1, mood_score := some 5, remarks := "Stressed", log_date := 1 }]
      [{ receiver_id := 1, rating := some 2 }]
      [{ emp_id := 1, status := "Pending", due_date := some 0 },
       { emp_id := 1, status := "Pending", due_date := some 0 },
       { emp_id := 1, status := "Pending", due_date := some 0 }]
      { emp_id := 1, name := "A", department := "D", role := "R",
        status := "Active" }).risk_score ≤ 95 :=
  (non_resigned_cap 1 _ _ _ _ _).1 (by decide)

/-- C3: an Active employee with no attendance rows, no mood rows, no
feedback rows and no tasks scores exactly 10 — the missing-attendance
and missing-mood penalties of 5 each, no feedback penalty — with level
Low Risk. -/
theorem no_data_score_ten (today : Int) (att : List AttRow)
    (mood : List MoodRow) (fb : List FbRow) (tasks : List TaskRow)
    (emp : Employee) (hs : emp.status = "Active")
    (ha : att.filter (fun r => r.emp_id == emp.emp_id) = [])
    (hm : mood.filter (fun r => r.emp_id == emp.emp_id) = [])
    (hf : fb.filter (fun r => r.receiver_id == emp.emp_id) = [])
    (ht : tasks.filter (fun r => r.emp_id == emp.emp_id) = []) :
    (scoreEmployee today att mood fb tasks emp).risk_score = 10 ∧
    (scoreEmployee today att mood fb tasks emp).risk_level = .low ∧
    (scoreEmployee today att mood fb tasks emp).key_factors =
      [.noAttendanceData, .noMoodData] := by
  simp [scoreEmployee, hs, ha, hm, hf, ht]

/-- Instantiation of the no-data theorem on a concrete Active employee
and empty signal tables. -/
theorem no_data_score_ten_witness :
    (scoreEmployee 0 [] [] [] []
      { emp_id := 1, name := "A", department := "D", role := "R",
        status := "Active" }).risk_score = 10 :=
  (no_data_score_ten 0 [] [] [] [] _ rfl rfl rfl rfl rfl).1

/-- Inserting into a list is a permutation of consing. -/
theorem insertByScore_perm (r : RiskRow) (l : List RiskRow) :
    List.Perm (insertByScore r l) (r :: l) := by
  induction l with
  | nil => simp [insertByScore]
  | cons x xs ih =>
    by_cases hc : x.risk_score ≤ r.risk_score
    · simp [insertByScore, hc]
    · simp only [insertByScore, if_neg hc]
      exact (ih.cons x).trans (List.Perm.swap r x xs)

/-- Membership after insertion. -/
theorem mem_insertByScore {b r : RiskRow} {l : List RiskRow} :
    b ∈ insertByScore r l ↔ b = r ∨ b ∈ l := by
  rw [(insertByScore_perm r l).mem_iff]
  simp

/-- Insertion preserves the score-descending order. -/
theorem sorted_insertByScore (r : RiskRow) (l : List RiskRow)
    (h : List.Pairwise (fun a b => b.risk_score ≤ a.risk_score) l) :
    List.Pairwise (fun a b => b.risk_score ≤ a.risk_score)
      (insertByScore r l) := by
  induction l with
  | nil => simp [insertByScore]
  | cons x xs ih =>
    rcases List.pairwise_cons.mp h with ⟨hx, hxs⟩
    by_cases hc : x.risk_score ≤ r.risk_score
    · simp only [insertByScore, if_pos hc]
      refine List.pairwise_cons.mpr ⟨?_, h⟩
      intro b hb
      rcases List.mem_cons.mp hb with hb | hb
      · subst hb; exact hc
      · exact le_trans (hx b hb) hc
    · simp only [insertByScore, if_neg hc]
      refine List.pairwise_cons.mpr ⟨?_, ih hxs⟩
      intro b hb
      rcases mem_insertByScore.mp hb with hb | hb
      · subst hb; omega
      · exact hx b hb

/-- The stable sort is sorted and permutes its input. -/
theorem sortByScoreDesc_spec (l : List RiskRow) :
    List.Pairwise (fun a b => b.risk_score ≤ a.risk_score)
      (sortByScoreDesc l) ∧ List.Perm (sortByScoreDesc l) l := by
  induction l with
  | nil => exact ⟨List.Pairwise.nil, List.Perm.refl _⟩
  | cons x xs ih =>
    refine ⟨sorted_insertByScore x _ ih.1, ?_⟩
    exact (insertByScore_perm x (sortByScoreDesc xs)).trans (ih.2.cons x)

/-- C9, counterexample: two Active employees with identical (empty)
signals tie at score 10, and the output keeps them in table order — the
employee with the larger identifier stays first when it comes first in
the input — so the result is not ordered with ties broken by employee
identifier ascending, and the order does depend on the input row
order. -/
theorem attrition_no_tiebreak :
    (compute_attrition_risk 0
        [{ emp_id := 2, name := "B", department := "D", role := "R",
           status := "Active" },
         { emp_id := 1, name := "A", department := "D", role := "R",
           status := "Active" }] [] [] [] []).map
      (fun r => (r.risk_score, r.emp_id)) = [(10, 2), (10, 1)] ∧
    ¬ specTieBreakSorted (compute_attrition_risk 0
        [{ emp_id := 2, name := "B", department := "D", role := "R",
           status := "Active" },
         { emp_id := 1, name := "A", department := "D", role := "R",
           status := "Active" }] [] [] [] []) := by
  constructor
  · decide
  · unfold specTieBreakSorted
    decide

/-- C9, amended: the attrition table is sorted by risk score descending
and is a permutation of the per-employee rows; the sort uses no
secondary key, so rows with equal scores keep the order of the employees
table (the output order is deterministic for a fixed snapshot but does
depend on the row order of the employees table within tied scores). -/
theorem attrition_sorted_desc (today : Int) (emp_df : List Employee)
    (att : List AttRow) (mood : List MoodRow) (fb : List FbRow)
    (tasks : List TaskRow) :
    List.Pairwise (fun a b => b.risk_score ≤ a.risk_score)
      (compute_attrition_risk today emp_df att mood fb tasks) ∧
    List.Perm (compute_attrition_risk today emp_df att mood fb tasks)
      (emp_df.map (scoreEmployee today att mood fb tasks)) :=
  sortByScoreDesc_spec _

/-- Instantiation of the sortedness theorem on a concrete two-employee
snapshot. -/
theorem attrition_sorted_desc_witness :
    List.Pairwise (fun a b => b.risk_score ≤ a.risk_score)
      (compute_attrition_risk 0
        [{ emp_id := 1, name := "A", department := "D", role := "R",
           status := "Active" },
         { emp_id := 2, name := "B", department := "D", role := "R",
           status := "Resigned" }] [] [] [] []) :=
  (attrition_sorted_desc 0 _ [] [] [] []).1

end Workforce
